import Mathlib

/-!
Verification development for rig_stats.py, a Prometheus exporter for Nvidia
GPU, miner and pool statistics.  The Python source is shallowly embedded:
each collector class becomes a Lean function over an explicit model of its
environment (driver query results, HTTP or socket query outcomes, the wall
clock), Python exceptions become the explicit error monad `Except PyErr`,
and Python dynamic values become the inductive `PyVal`.  Numbers are
modelled as exact rationals.
-/

/-- Python exceptions that the embedded fragments of rig_stats.py can raise
or catch.  `nvmlError` stands for `py3nvml.NVMLError`, `connectionError`
for `urllib3.exceptions.NewConnectionError`, `httpError` for any other
urllib3 failure, and `jsonDecodeError` for `json.JSONDecodeError`. -/
inductive PyErr where
  | nvmlError
  | attributeError (attr : String)
  | keyError (key : String)
  | typeError (msg : String)
  | indexError
  | valueError (msg : String)
  | zeroDivisionError
  | connectionError
  | httpError (msg : String)
  | jsonDecodeError
deriving DecidableEq

/-- Dynamic Python values flowing through rig_stats.py: JSON scalars,
arrays and objects (`num`, `str`, `pynone`, `arr`, `dict`), plus the three
structured readings returned by the NVML driver bindings
(`nvmlDeviceGetUtilizationRates`, `nvmlDeviceGetMemoryInfo`,
`nvmlDeviceGetBAR1MemoryInfo`); `nvmlDeviceGetPowerManagementLimitConstraints`
returns a Python list, modelled with `arr`.  Numbers are exact rationals;
booleans do not occur in the modelled fragments. -/
inductive PyVal where
  | num (q : ℚ)
  | str (s : String)
  | pynone
  | arr (xs : List PyVal)
  | dict (fields : List (String × PyVal))
  | utilization (gpu memory : ℚ)
  | memInfo (used free total : ℚ)
  | bar1MemInfo (bar1Used bar1Free bar1Total : ℚ)

/-- Python attribute access `v.a` as used on NVML structured readings;
on any value without that attribute (in particular on the float `0.0`
that `NvidiaCollector.call` substitutes after a driver failure) it raises
`AttributeError`, exactly as CPython does. -/
def PyVal.attr : PyVal → String → Except PyErr PyVal
  | .utilization gpu _, "gpu" => .ok (.num gpu)
  | .utilization _ memory, "memory" => .ok (.num memory)
  | .memInfo used _ _, "used" => .ok (.num used)
  | .memInfo _ free _, "free" => .ok (.num free)
  | .memInfo _ _ total, "total" => .ok (.num total)
  | .bar1MemInfo u _ _, "bar1Used" => .ok (.num u)
  | .bar1MemInfo _ f _, "bar1Free" => .ok (.num f)
  | .bar1MemInfo _ _ t, "bar1Total" => .ok (.num t)
  | _, a => .error (.attributeError a)

/-- Python subscript `v[k]` with a string key: on a dict it looks the key
up and raises `KeyError` when absent; on every other value it raises
`TypeError`. -/
def PyVal.getItem : PyVal → String → Except PyErr PyVal
  | .dict fields, k =>
      match fields.lookup k with
      | some v => .ok v
      | none => .error (.keyError k)
  | _, _ => .error (.typeError "object is not subscriptable")

/-- Python subscript `v[i]` with an integer index, as in
`NvidiaCollector.call(..)[0]`: valid on a list, `IndexError` out of range,
`TypeError` on a number (the defaulted `0.0`). -/
def PyVal.indexNat : PyVal → Nat → Except PyErr PyVal
  | .arr xs, i =>
      match xs.get? i with
      | some v => .ok v
      | none => .error .indexError
  | _, _ => .error (.typeError "object is not subscriptable")

/-- Python `v.get(k, default)` as used in `FlyPoolCollector.collect`:
defined on dicts, `AttributeError` on anything else. -/
def PyVal.get : PyVal → String → PyVal → Except PyErr PyVal
  | .dict fields, k, d => .ok ((fields.lookup k).getD d)
  | _, _, _ => .error (.attributeError "get")

/-- Python `v.items()` as used in `BMinerCollector.collect`: the key/value
pairs of a dict in insertion order, `AttributeError` on anything else. -/
def PyVal.items : PyVal → Except PyErr (List (String × PyVal))
  | .dict fields => .ok fields
  | _ => .error (.attributeError "items")

/-- Python iteration `for x in v` as used in `DSTMCollector.collect`:
a list yields its elements, a dict its keys, a string its characters,
anything else raises `TypeError`. -/
def PyVal.iter : PyVal → Except PyErr (List PyVal)
  | .arr xs => .ok xs
  | .dict fields => .ok (fields.map (fun p => PyVal.str p.1))
  | .str s => .ok (s.toList.map (fun c => PyVal.str c.toString))
  | _ => .error (.typeError "object is not iterable")

/-- Coercion of a Python value to a number by an arithmetic context
(subtraction or division in rig_stats.py); non-numbers raise `TypeError`
as the corresponding CPython operator would. -/
def PyVal.asNum : PyVal → Except PyErr ℚ
  | .num q => .ok q
  | _ => .error (.typeError "unsupported operand type")

/-- One sample of a metric family: the label values (stored verbatim, as
prometheus_client add_metric stores whatever it is handed) and the sample
value. -/
structure Sample where
  labels : List PyVal
  value : PyVal

/-- Model of prometheus_client GaugeMetricFamily: name, documentation
string, declared label names, and the samples added so far. -/
structure MetricFamily where
  name : String
  documentation : String
  labels : List String
  samples : List Sample

/-- Constructor call `GaugeMetricFamily(name, documentation, labels=..)`:
a family with no samples yet. -/
def GaugeMetricFamily (name documentation : String) (labels : List String) : MetricFamily :=
  ⟨name, documentation, labels, []⟩

/-- Method `family.add_metric(labels, value)`: appends one sample. -/
def MetricFamily.add_metric (f : MetricFamily) (labels : List PyVal) (value : PyVal) : MetricFamily :=
  ⟨f.name, f.documentation, f.labels, f.samples ++ [⟨labels, value⟩]⟩

/-- The NVML driver interface as seen by rig_stats.py.
`nvmlDeviceGetCount`, `nvmlDeviceGetHandleByIndex` and `nvmlDeviceGetUUID`
are the calls issued directly (unguarded); `deviceGet` answers the
name-dispatched per-metric queries issued through `NvidiaCollector.call`
(the name passed is the full attribute name looked up on the nvml module).
Each can yield a reading or an exception.  Handles are opaque naturals. -/
structure NvmlEnv where
  nvmlDeviceGetCount : Except PyErr Nat
  nvmlDeviceGetHandleByIndex : Int → Except PyErr Nat
  nvmlDeviceGetUUID : Nat → Except PyErr String
  deviceGet : String → Nat → Option Int → Except PyErr PyVal

/-- NVML enum constant nvmlClockType_t.NVML_CLOCK_MEM. -/
def NVML_CLOCK_MEM : Int := 2

/-- NVML enum constant nvmlClockType_t.NVML_CLOCK_COUNT (the sentinel
value, which is what rig_stats.py passes for the core clock). -/
def NVML_CLOCK_COUNT : Int := 4

/-- NVML enum constant NVML_TEMPERATURE_GPU. -/
def NVML_TEMPERATURE_GPU : Int := 0

/-- NVML enum constant NVML_TEMPERATURE_THRESHOLD_SHUTDOWN. -/
def NVML_TEMPERATURE_THRESHOLD_SHUTDOWN : Int := 0

/-- NVML enum constant NVML_TEMPERATURE_THRESHOLD_SLOWDOWN. -/
def NVML_TEMPERATURE_THRESHOLD_SLOWDOWN : Int := 1

/-- Embeds `NvidiaCollector.call` (src/rig_stats.py lines 18-24): look up
`nvmlDeviceGet` + name on the nvml module, call it with the handle and the
optional extra argument, and turn an `NVMLError` into the float `0.0`.
Any other exception propagates. -/
def NvidiaCollector.call (env : NvmlEnv) (nvml_getter_name : String) (handle : Nat)
    (arg : Option Int) : Except PyErr PyVal :=
  match env.deviceGet ("nvmlDeviceGet" ++ nvml_getter_name) handle arg with
  | .error .nvmlError => .ok (.num 0)
  | r => r

/-- The seven gauge families built by `NvidiaCollector.collect`, threaded
through the per-device loop. -/
structure NvFams where
  gpu_utilization : MetricFamily
  clock_speed : MetricFamily
  power_usage : MetricFamily
  memory_usage : MetricFamily
  bar1_memory_usage : MetricFamily
  temperature : MetricFamily
  fan_speed : MetricFamily

/-- Embeds the list comprehension on line 36 of src/rig_stats.py:
`[(i, nvmlDeviceGetHandleByIndex(i)) for i in range(count)]`, with the
first failing handle lookup raising out of the comprehension. -/
def NvidiaCollector.getHandles (env : NvmlEnv) : List Nat → Except PyErr (List (Nat × Nat))
  | [] => .ok []
  | i :: rest => do
      let h ← env.nvmlDeviceGetHandleByIndex (i : Int)
      let hs ← NvidiaCollector.getHandles env rest
      pure ((i, h) :: hs)

/-- Embeds the body of the per-device loop of `NvidiaCollector.collect`
(src/rig_stats.py lines 38-70), in source order: UUID, utilization,
clocks, power, memory, BAR1 memory, temperature, fan speed. -/
def NvidiaCollector.collectDevice (env : NvmlEnv) (handle : Nat) (fams : NvFams) :
    Except PyErr NvFams := do
  let gpu_id ← env.nvmlDeviceGetUUID handle
  let gid : PyVal := .str gpu_id
  -- GPU Utilization
  let nvml_gpu_utilization ← NvidiaCollector.call env "UtilizationRates" handle none
  let gpu_utilization := fams.gpu_utilization.add_metric [gid, .str "gpu"]
    (← nvml_gpu_utilization.attr "gpu")
  let gpu_utilization := gpu_utilization.add_metric [gid, .str "memory"]
    (← nvml_gpu_utilization.attr "memory")
  -- Clock Speed
  let clock_speed := fams.clock_speed.add_metric [gid, .str "core"]
    (← NvidiaCollector.call env "ClockInfo" handle (some NVML_CLOCK_COUNT))
  let clock_speed := clock_speed.add_metric [gid, .str "memory"]
    (← NvidiaCollector.call env "ClockInfo" handle (some NVML_CLOCK_MEM))
  let clock_speed := clock_speed.add_metric [gid, .str "max_core"]
    (← NvidiaCollector.call env "MaxClockInfo" handle (some NVML_CLOCK_COUNT))
  let clock_speed := clock_speed.add_metric [gid, .str "max_memory"]
    (← NvidiaCollector.call env "MaxClockInfo" handle (some NVML_CLOCK_MEM))
  -- Power Usage
  let power_usage := fams.power_usage.add_metric [gid, .str "usage"]
    (← NvidiaCollector.call env "PowerUsage" handle none)
  let power_usage := power_usage.add_metric [gid, .str "min_limit"]
    (← (← NvidiaCollector.call env "PowerManagementLimitConstraints" handle none).indexNat 0)
  let power_usage := power_usage.add_metric [gid, .str "max_limit"]
    (← (← NvidiaCollector.call env "PowerManagementLimitConstraints" handle none).indexNat 1)
  let power_usage := power_usage.add_metric [gid, .str "limit"]
    (← NvidiaCollector.call env "PowerManagementLimit" handle none)
  let power_usage := power_usage.add_metric [gid, .str "default_limit"]
    (← NvidiaCollector.call env "PowerManagementDefaultLimit" handle none)
  let power_usage := power_usage.add_metric [gid, .str "enforced_limit"]
    (← NvidiaCollector.call env "EnforcedPowerLimit" handle none)
  -- Memory Usage
  let nvml_memory_usage ← NvidiaCollector.call env "MemoryInfo" handle none
  let memory_usage := fams.memory_usage.add_metric [gid, .str "used"]
    (← nvml_memory_usage.attr "used")
  let memory_usage := memory_usage.add_metric [gid, .str "free"]
    (← nvml_memory_usage.attr "free")
  let memory_usage := memory_usage.add_metric [gid, .str "total"]
    (← nvml_memory_usage.attr "total")
  -- BAR1 Memory Usage
  let nvml_bar1_memory_usage ← NvidiaCollector.call env "BAR1MemoryInfo" handle none
  let bar1_memory_usage := fams.bar1_memory_usage.add_metric [gid, .str "used"]
    (← nvml_bar1_memory_usage.attr "bar1Used")
  let bar1_memory_usage := bar1_memory_usage.add_metric [gid, .str "free"]
    (← nvml_bar1_memory_usage.attr "bar1Free")
  let bar1_memory_usage := bar1_memory_usage.add_metric [gid, .str "total"]
    (← nvml_bar1_memory_usage.attr "bar1Total")
  -- Temperature
  let temperature := fams.temperature.add_metric [gid, .str "current"]
    (← NvidiaCollector.call env "Temperature" handle (some NVML_TEMPERATURE_GPU))
  let temperature := temperature.add_metric [gid, .str "slowdown_threshold"]
    (← NvidiaCollector.call env "TemperatureThreshold" handle (some NVML_TEMPERATURE_THRESHOLD_SLOWDOWN))
  let temperature := temperature.add_metric [gid, .str "shutdown_threshold"]
    (← NvidiaCollector.call env "TemperatureThreshold" handle (some NVML_TEMPERATURE_THRESHOLD_SHUTDOWN))
  -- Fan Speed
  let fan_speed := fams.fan_speed.add_metric [gid]
    (← NvidiaCollector.call env "FanSpeed" handle none)
  pure ⟨gpu_utilization, clock_speed, power_usage, memory_usage, bar1_memory_usage,
    temperature, fan_speed⟩

/-- The `for (i, handle) in gpu_handles` loop of `NvidiaCollector.collect`. -/
def NvidiaCollector.collectLoop (env : NvmlEnv) :
    List (Nat × Nat) → NvFams → Except PyErr NvFams
  | [], fams => .ok fams
  | (_, handle) :: rest, fams => do
      let fams ← NvidiaCollector.collectDevice env handle fams
      NvidiaCollector.collectLoop env rest fams

/-- Embeds `NvidiaCollector.collect` (src/rig_stats.py lines 27-78): builds
the seven empty gauge families, enumerates the devices, runs the per-device
loop, and yields the families in source order.  The generator is modelled
as fully evaluated, as the Prometheus registry consumes it on a scrape;
any exception raised along the way is the `Except.error` result. -/
def NvidiaCollector.collect (env : NvmlEnv) : Except PyErr (List MetricFamily) := do
  let gpu_utilization := GaugeMetricFamily "nvidia_gpu_utilization" "GPU Utilization" ["gpu_id", "type"]
  let clock_speed := GaugeMetricFamily "nvidia_clock_speed" "Clock Speed" ["gpu_id", "type"]
  let power_usage := GaugeMetricFamily "nvidia_power_usage" "Power Usage" ["gpu_id", "type"]
  let memory_usage := GaugeMetricFamily "nvidia_memory_usage" "Memory Usage" ["gpu_id", "type"]
  let bar1_memory_usage := GaugeMetricFamily "nvidia_bar1_memory_usage" "BAR1 Memory Usage" ["gpu_id", "type"]
  let temperature := GaugeMetricFamily "nvidia_temperature" "Temperature" ["gpu_id", "type"]
  let fan_speed := GaugeMetricFamily "nvidia_fan_speed" "Fan Speed" ["gpu_id"]
  let gpu_handles ← NvidiaCollector.getHandles env (List.range (← env.nvmlDeviceGetCount))
  let fams ← NvidiaCollector.collectLoop env gpu_handles
    ⟨gpu_utilization, clock_speed, power_usage, memory_usage, bar1_memory_usage,
      temperature, fan_speed⟩
  pure [fams.gpu_utilization, fams.clock_speed, fams.power_usage, fams.memory_usage,
    fams.bar1_memory_usage, fams.temperature, fams.fan_speed]

/-- Substitution idiom of `FlyPoolCollector.collect`:
`data[k] if data[k] is not None else 0.0` once the lookup has succeeded
(the two identical subscripts are modelled by one lookup). -/
def noneToZero : PyVal → PyVal
  | .pynone => .num 0
  | v => v

/-- Embeds `FlyPoolCollector.collect` (src/rig_stats.py lines 87-107) as a
function of the cached snapshot `self.data` (the parsed JSON of the last
successful refresh, or the empty dict a fresh collector starts with).
Reads `self.data.get('data', {})` and then subscripts the ten fixed fields
in source order, substituting 0.0 only for a field that is present with
value None; yields hashrate, shares, earnings. -/
def FlyPoolCollector.collect (selfData : PyVal) : Except PyErr (List MetricFamily) := do
  let hashrate := GaugeMetricFamily "pool_hashrate" "Hashrate" ["type"]
  let shares := GaugeMetricFamily "pool_shares" "Hashrate" ["type"]
  let earnings := GaugeMetricFamily "pool_earnings" "Hashrate" ["type"]
  let data ← selfData.get "data" (.dict [])
  let hashrate := hashrate.add_metric [.str "current"] (noneToZero (← data.getItem "currentHashrate"))
  let hashrate := hashrate.add_metric [.str "average"] (noneToZero (← data.getItem "averageHashrate"))
  let shares := shares.add_metric [.str "valid"] (noneToZero (← data.getItem "validShares"))
  let shares := shares.add_metric [.str "invalid"] (noneToZero (← data.getItem "invalidShares"))
  let shares := shares.add_metric [.str "stale"] (noneToZero (← data.getItem "staleShares"))
  let earnings := earnings.add_metric [.str "unconfirmed"] (noneToZero (← data.getItem "unconfirmed"))
  let earnings := earnings.add_metric [.str "unpaid"] (noneToZero (← data.getItem "unpaid"))
  let earnings := earnings.add_metric [.str "coins_per_min"] (noneToZero (← data.getItem "coinsPerMin"))
  let earnings := earnings.add_metric [.str "btc_per_min"] (noneToZero (← data.getItem "btcPerMin"))
  let earnings := earnings.add_metric [.str "usd_per_min"] (noneToZero (← data.getItem "usdPerMin"))
  pure [hashrate, shares, earnings]

/-- Embeds `FlyPoolCollector.query_pool` (src/rig_stats.py lines 109-115)
as a pure state transformer on the cached snapshot `self.data`.  The
`outcome` argument is the combined result of the HTTPS request, the body
decode and `json.loads`; the method body wraps all of it in
`try .. except Exception: pass`, so every failure leaves the snapshot as
it was and nothing propagates (hence the total return type), while a
success replaces the snapshot with the freshly parsed value as a whole. -/
def FlyPoolCollector.query_pool (selfData : PyVal) (outcome : Except PyErr PyVal) : PyVal :=
  match outcome with
  | .ok parsed => parsed
  | .error _ => selfData

/-- The per-GPU loop of `DSTMCollector.collect` (src/rig_stats.py lines
134-142), threading the four device-scoped families through the `result`
array in order. -/
def DSTMCollector.collectGpus :
    List PyVal → MetricFamily → MetricFamily → MetricFamily → MetricFamily →
    Except PyErr (MetricFamily × MetricFamily × MetricFamily × MetricFamily)
  | [], hashrate, efficiency, pool_shares, latency =>
      .ok (hashrate, efficiency, pool_shares, latency)
  | gpu :: rest, hashrate, efficiency, pool_shares, latency => do
      let gpu_id ← gpu.getItem "gpu_uuid"
      let hashrate := hashrate.add_metric [gpu_id, .str "current"] (← gpu.getItem "sol_ps")
      let hashrate := hashrate.add_metric [gpu_id, .str "average"] (← gpu.getItem "avg_sol_ps")
      let efficiency := efficiency.add_metric [gpu_id, .str "current"] (← gpu.getItem "sol_pw")
      let efficiency := efficiency.add_metric [gpu_id, .str "average"] (← gpu.getItem "avg_sol_pw")
      let pool_shares := pool_shares.add_metric [gpu_id, .str "accepted"] (← gpu.getItem "accepted_shares")
      let pool_shares := pool_shares.add_metric [gpu_id, .str "rejected"] (← gpu.getItem "rejected_shares")
      let latency := latency.add_metric [gpu_id] (← gpu.getItem "latency")
      DSTMCollector.collectGpus rest hashrate efficiency pool_shares latency

/-- Embeds `DSTMCollector.collect` (src/rig_stats.py lines 123-148).  The
`queryResult` argument is the outcome of `DSTMCollector.query_miner`
(socket connect, send, bounded recv, `json.loads`), which has no exception
handling of its own, so any failure propagates straight out of collect.
Yields uptime, hashrate, efficiency, pool_shares, latency. -/
def DSTMCollector.collect (queryResult : Except PyErr PyVal) : Except PyErr (List MetricFamily) := do
  let hashrate := GaugeMetricFamily "miner_hashrate" "Hashrate" ["gpu_id", "type"]
  let efficiency := GaugeMetricFamily "miner_efficiency" "Efficiency" ["gpu_id", "type"]
  let pool_shares := GaugeMetricFamily "miner_pool_shares" "Pool Shares" ["gpu_id", "type"]
  let latency := GaugeMetricFamily "miner_latency" "Latency" ["gpu_id"]
  let uptime := GaugeMetricFamily "miner_uptime" "Uptime" ["type"]
  let data ← queryResult
  let uptime := uptime.add_metric [.str "miner"] (← data.getItem "uptime")
  let uptime := uptime.add_metric [.str "connection"] (← data.getItem "contime")
  let gpus ← (← data.getItem "result").iter
  let (hashrate, efficiency, pool_shares, latency) ←
    DSTMCollector.collectGpus gpus hashrate efficiency pool_shares latency
  pure [uptime, hashrate, efficiency, pool_shares, latency]

/-- Embeds `BMinerCollector.query_miner` (src/rig_stats.py lines 187-194).
The `outcome` argument is the combined result of the HTTP GET, the body
decode and `json.loads`, all of which sit inside the try block; only
`urllib3.exceptions.NewConnectionError` is caught and turned into the
empty dict, every other exception propagates. -/
def BMinerCollector.query_miner (outcome : Except PyErr PyVal) : Except PyErr PyVal :=
  match outcome with
  | .error .connectionError => .ok (.dict [])
  | r => r

/-- Python `int(s)` on the string keys of the bminer `miners` dict;
an unparsable string raises `ValueError`. -/
def pyInt (s : String) : Except PyErr Int :=
  match s.toInt? with
  | some n => .ok n
  | none => .error (.valueError s)

/-- Python float division as in the bminer efficiency computation;
division by zero raises `ZeroDivisionError`. -/
def pyDiv (a b : ℚ) : Except PyErr ℚ :=
  if b = 0 then .error .zeroDivisionError else .ok (a / b)

/-- Python `round(x, 2)` modelled on exact rationals: round to the nearest
multiple of 1/100 (the float tie-breaking of CPython is immaterial at the
inputs considered here). -/
def round2 (q : ℚ) : ℚ := ((round (q * 100) : ℤ) : ℚ) / 100

/-- The per-GPU loop of `BMinerCollector.collect` (src/rig_stats.py lines
176-180): for each entry of the `miners` dict in insertion order, resolve
the bminer device index through the unguarded NVML handle and UUID calls,
then add the hashrate sample and the rounded efficiency sample. -/
def BMinerCollector.collectGpus (env : NvmlEnv) :
    List (String × PyVal) → MetricFamily → MetricFamily →
    Except PyErr (MetricFamily × MetricFamily)
  | [], hashrate, efficiency => .ok (hashrate, efficiency)
  | (key, gpu) :: rest, hashrate, efficiency => do
      let idx ← pyInt key
      let handle ← env.nvmlDeviceGetHandleByIndex idx
      let gpu_id ← env.nvmlDeviceGetUUID handle
      let hashrate := hashrate.add_metric [.str gpu_id, .str "current"]
        (← (← gpu.getItem "solver").getItem "solution_rate")
      let sr ← (← (← gpu.getItem "solver").getItem "solution_rate").asNum
      let pw ← (← (← gpu.getItem "device").getItem "power").asNum
      let efficiency := efficiency.add_metric [.str gpu_id, .str "current"]
        (.num (round2 (← pyDiv sr pw)))
      BMinerCollector.collectGpus env rest hashrate efficiency

/-- Embeds `BMinerCollector.collect` (src/rig_stats.py lines 164-185).
`now` is the value of `int(time.time())` at the moment of the scrape and
`queryOutcome` the raw HTTP query result fed to `query_miner`.  Yields
uptime, hashrate, efficiency, pool_shares. -/
def BMinerCollector.collect (env : NvmlEnv) (now : Int) (queryOutcome : Except PyErr PyVal) :
    Except PyErr (List MetricFamily) := do
  let hashrate := GaugeMetricFamily "miner_hashrate" "Hashrate" ["gpu_id", "type"]
  let efficiency := GaugeMetricFamily "miner_efficiency" "Efficiency" ["gpu_id", "type"]
  let pool_shares := GaugeMetricFamily "miner_pool_shares" "Pool Shares" ["type"]
  let uptime := GaugeMetricFamily "miner_uptime" "Uptime" ["type"]
  let data ← BMinerCollector.query_miner queryOutcome
  let start_time ← (← data.getItem "start_time").asNum
  let uptime := uptime.add_metric [.str "miner"] (.num ((now : ℚ) - start_time))
  let uptime := uptime.add_metric [.str "connection"] (.num 0)
  let pool_shares := pool_shares.add_metric [.str "accepted"]
    (← (← data.getItem "stratum").getItem "accepted_shares")
  let pool_shares := pool_shares.add_metric [.str "rejected"]
    (← (← data.getItem "stratum").getItem "rejected_shares")
  let miners ← (← data.getItem "miners").items
  let (hashrate, efficiency) ← BMinerCollector.collectGpus env miners hashrate efficiency
  pure [uptime, hashrate, efficiency, pool_shares]

/-- The validated command line of rig_stats.py: the six optional
pool/miner arguments plus the listen port (src/rig_stats.py lines
197-248).  `none` is an argument that was not supplied. -/
structure Args where
  port : Int
  pool : Option String
  pool_api_host : Option String
  pool_api_miner : Option String
  miner : Option String
  miner_api_host : Option String
  miner_api_port : Option Int

/-- Number of supplied arguments of the pool group, i.e.
`len(tuple(filter(None.__ne__, (args.pool, args.pool_api_host, args.pool_api_miner))))`. -/
def parse_args.poolGiven (a : Args) : Nat :=
  ([a.pool.isSome, a.pool_api_host.isSome, a.pool_api_miner.isSome].filter id).length

/-- Number of supplied arguments of the miner group, i.e.
`len(tuple(filter(None.__ne__, (args.miner, args.miner_api_host, args.miner_api_port))))`. -/
def parse_args.minerGiven (a : Args) : Nat :=
  ([a.miner.isSome, a.miner_api_host.isSome, a.miner_api_port.isSome].filter id).length

/-- Embeds the validation step of `parse_args` (src/rig_stats.py lines
241-248): each of the two argument groups must be supplied either not at
all or completely (`not in (0, 3)` triggers `parser.error`, a startup
failure); otherwise the parsed arguments are returned. -/
def parse_args.validate (a : Args) : Except String Args :=
  if ¬(parse_args.poolGiven a = 0 ∨ parse_args.poolGiven a = 3) then
    .error "--pool requires --pool-api-host and --pool-api-miner."
  else if ¬(parse_args.minerGiven a = 0 ∨ parse_args.minerGiven a = 3) then
    .error "--miner requires --miner-api-host and --miner-api-port."
  else .ok a

/-- The two miner adapter kinds selectable on the command line. -/
inductive MinerKind where
  | dstm
  | bminer

/-- One scrape of the Prometheus registry (src/rig_stats.py lines 264-277):
collectors run in registration order - the always-present NvidiaCollector,
then the FlyPoolCollector if a pool is configured (reading its cached
snapshot, no network), then the configured miner collector - and their
families are concatenated.  A collector exception fails the whole scrape. -/
def scrape (env : NvmlEnv) (now : Int) (poolData : Option PyVal)
    (miner : Option (MinerKind × Except PyErr PyVal)) : Except PyErr (List MetricFamily) := do
  let nvidiaFams ← NvidiaCollector.collect env
  let poolFams ← match poolData with
    | none => pure []
    | some d => FlyPoolCollector.collect d
  let minerFams ← match miner with
    | none => pure []
    | some (MinerKind.dstm, outcome) => DSTMCollector.collect outcome
    | some (MinerKind.bminer, outcome) => BMinerCollector.collect env now outcome
  pure (nvidiaFams ++ poolFams ++ minerFams)

/-- NVML environment with no devices at all; every query fails. -/
def envNoDevices : NvmlEnv :=
  ⟨.ok 0, fun _ => .error .nvmlError, fun _ => .error .nvmlError,
    fun _ _ _ => .error .nvmlError⟩

/-- NVML environment with one device whose utilization query raises
`NVMLError` while every other per-metric query answers the number 7. -/
def envUtilFails : NvmlEnv :=
  ⟨.ok 1, fun _ => .ok 0, fun _ => .ok "GPU-11111111",
    fun name _ _ =>
      if name = "nvmlDeviceGetUtilizationRates" then .error .nvmlError
      else .ok (.num 7)⟩

/-- C1: a single failing per-metric query is claimed to yield 0.0 for that
point only.  Evaluated at the failing input: with one device whose
utilization query raises NVMLError, `NvidiaCollector.call` substitutes the
float 0.0 and the subsequent `.gpu` attribute access raises
AttributeError, aborting the entire collection instead of defaulting that
single point. -/
theorem nvidia_struct_query_failure_aborts_collect :
    NvidiaCollector.collect envUtilFails = .error (.attributeError "gpu") := rfl

/-- C2: with no prior successful refresh the cached snapshot is the empty
dict, `self.data.get('data', {})` yields the empty dict, and the very
first subscript `data['currentHashrate']` raises KeyError - collect fails
instead of emitting the three families with 0.0 values. -/
theorem flypool_collect_empty_snapshot_keyerror :
    FlyPoolCollector.collect (.dict []) = .error (.keyError "currentHashrate") := rfl

/-- C4: `FlyPoolCollector.query_pool` leaves the cached snapshot exactly
as it was on every failure outcome (and, being total, propagates no
exception), and replaces it as a whole with the parsed payload on
success. -/
theorem flypool_query_pool_preserves_or_replaces (d : PyVal) (outcome : Except PyErr PyVal) :
    (∀ e, outcome = .error e → FlyPoolCollector.query_pool d outcome = d) ∧
    (∀ j, outcome = .ok j → FlyPoolCollector.query_pool d outcome = j) := by
  constructor
  · intro e he; subst he; rfl
  · intro j hj; subst hj; rfl

/-- Witness for C4 at concrete inputs: a failed refresh keeps the old
snapshot, a successful one installs the new payload. -/
theorem flypool_query_pool_preserves_or_replaces_witness :
    FlyPoolCollector.query_pool (.dict [("data", .num 1)]) (.error .connectionError)
      = .dict [("data", .num 1)] ∧
    FlyPoolCollector.query_pool (.dict []) (.ok (.num 2)) = .num 2 :=
  ⟨(flypool_query_pool_preserves_or_replaces (.dict [("data", .num 1)])
      (.error .connectionError)).1 .connectionError rfl,
   (flypool_query_pool_preserves_or_replaces (.dict []) (.ok (.num 2))).2 (.num 2) rfl⟩

/-- The crafted socket-variant miner response of the specification. -/
def dstmResponse : PyVal :=
  .dict [("uptime", .num 100), ("contime", .num 5),
    ("result", .arr [.dict [("gpu_uuid", .str "GPU-1"), ("sol_ps", .num 50),
      ("avg_sol_ps", .num 48), ("sol_pw", .num 1.2), ("avg_sol_pw", .num 1.1),
      ("accepted_shares", .num 3), ("rejected_shares", .num 0), ("latency", .num 20)]])]

/-- C7: on the crafted response, `DSTMCollector.collect` yields the uptime
points 100 (miner) and 5 (connection) and, for exactly the one device
GPU-1, hashrate 50/48, efficiency 1.2/1.1, shares 3/0 and latency 20,
matching the input exactly and in source order. -/
theorem dstm_collect_crafted_response :
    DSTMCollector.collect (.ok dstmResponse) = .ok [
      ⟨"miner_uptime", "Uptime", ["type"],
        [⟨[.str "miner"], .num 100⟩, ⟨[.str "connection"], .num 5⟩]⟩,
      ⟨"miner_hashrate", "Hashrate", ["gpu_id", "type"],
        [⟨[.str "GPU-1", .str "current"], .num 50⟩, ⟨[.str "GPU-1", .str "average"], .num 48⟩]⟩,
      ⟨"miner_efficiency", "Efficiency", ["gpu_id", "type"],
        [⟨[.str "GPU-1", .str "current"], .num 1.2⟩, ⟨[.str "GPU-1", .str "average"], .num 1.1⟩]⟩,
      ⟨"miner_pool_shares", "Pool Shares", ["gpu_id", "type"],
        [⟨[.str "GPU-1", .str "accepted"], .num 3⟩, ⟨[.str "GPU-1", .str "rejected"], .num 0⟩]⟩,
      ⟨"miner_latency", "Latency", ["gpu_id"],
        [⟨[.str "GPU-1"], .num 20⟩]⟩] := rfl

/-- C3 counterexample: at the concrete input of a connection failure, the
claim that `BMinerCollector.collect` does not fail the scrape is false -
the query returns the empty dict and collect raises KeyError on
`start_time` before emitting anything. -/
theorem bminer_empty_result_claim_counterexample :
    BMinerCollector.collect envNoDevices 1000 (.error .connectionError)
      = .error (.keyError "start_time") := rfl

/-- C3 as amended: a connection failure of the HTTP miner query makes
`query_miner` return the empty dict, and `collect` built on that empty
dict raises KeyError on `start_time` - failing the scrape with no uptime
or share families emitted (the source marks handling the empty dict as a
todo) - for every NVML environment and clock value. -/
theorem bminer_empty_result_collect_raises (env : NvmlEnv) (now : Int) :
    BMinerCollector.query_miner (.error .connectionError) = .ok (.dict []) ∧
    BMinerCollector.collect env now (.error .connectionError)
      = .error (.keyError "start_time") := ⟨rfl, rfl⟩

/-- Bind on a failed `Except` computation short-circuits. -/
theorem except_bind_error {ε α β : Type} (e : ε) (f : α → Except ε β) :
    ((Except.error e : Except ε α) >>= f) = Except.error e := rfl

/-- Bind on a successful `Except` computation applies the continuation. -/
theorem except_bind_ok {ε α β : Type} (a : α) (f : α → Except ε β) :
    ((Except.ok a : Except ε α) >>= f) = f a := rfl

/-- Inversion of a successful bind: both stages succeeded. -/
theorem except_bind_ok_ex {ε α β : Type} {x : Except ε α} {f : α → Except ε β} {b : β}
    (h : (x >>= f) = .ok b) : ∃ a, x = .ok a ∧ f a = .ok b := by
  cases x with
  | error e => simp [except_bind_error] at h
  | ok a => exact ⟨a, rfl, h⟩

/-- C9: `BMinerCollector.query_miner` absorbs exactly the connection
failure, yielding the empty dict; every other failure of the HTTP query or
of the JSON parse propagates unchanged out of `query_miner`, and hence out
of `collect`, failing that scrape. -/
theorem bminer_query_absorbs_only_connection_failure :
    BMinerCollector.query_miner (.error .connectionError) = .ok (.dict []) ∧
    (∀ e, e ≠ PyErr.connectionError → BMinerCollector.query_miner (.error e) = .error e) ∧
    (∀ e (env : NvmlEnv) (now : Int), e ≠ PyErr.connectionError →
      BMinerCollector.collect env now (.error e) = .error e) := by
  refine ⟨rfl, ?_, ?_⟩
  · intro e he
    cases e <;> first | rfl | exact absurd rfl he
  · intro e env now he
    have hq : BMinerCollector.query_miner (.error e) = .error e := by
      cases e <;> first | rfl | exact absurd rfl he
    unfold BMinerCollector.collect
    rw [hq]
    rfl

/-- Witness for C9: a JSON decode failure is not absorbed - it propagates
out of the query and fails the collect pass. -/
theorem bminer_query_absorbs_only_connection_failure_witness :
    BMinerCollector.query_miner (.error .jsonDecodeError) = .error .jsonDecodeError ∧
    BMinerCollector.collect envNoDevices 0 (.error .jsonDecodeError)
      = .error .jsonDecodeError :=
  ⟨bminer_query_absorbs_only_connection_failure.2.1 .jsonDecodeError (by decide),
   bminer_query_absorbs_only_connection_failure.2.2 .jsonDecodeError envNoDevices 0 (by decide)⟩

/-- Extracts the value of sample `j` of family `i` of a scrape result,
with None standing in for a missing position; used to tell two scrape
results apart. -/
def sampleValue (r : Except PyErr (List MetricFamily)) (i j : Nat) : PyVal :=
  match r with
  | .ok fams =>
      match fams.get? i with
      | some f =>
          match f.samples.get? j with
          | some s => s.value
          | none => .pynone
      | none => .pynone
  | .error _ => .pynone

/-- A fixed successful bminer status payload: started at 900, one share
accepted, no devices reported. -/
def bmPayload : PyVal :=
  .dict [("start_time", .num 900),
    ("stratum", .dict [("accepted_shares", .num 1), ("rejected_shares", .num 0)]),
    ("miners", .dict [])]

/-- C5 counterexample: two consecutive scrapes with identical adapter
state and identical source data but clock readings 1000 and 1001 differ -
the bminer miner-uptime sample is computed from the scrape-time clock, so
the metric sets are not identical even though no underlying source state
changed. -/
theorem scrape_clock_dependence_counterexample :
    scrape envNoDevices 1000 none (some (MinerKind.bminer, .ok bmPayload)) ≠
    scrape envNoDevices 1001 none (some (MinerKind.bminer, .ok bmPayload)) := by
  intro h
  have h2 : PyVal.num (((1000 : ℤ) : ℚ) - 900) = PyVal.num (((1001 : ℤ) : ℚ) - 900) :=
    congrArg (fun r => sampleValue r 7 0) h
  have h3 := PyVal.num.inj h2
  norm_num at h3

/-- C5 as amended: two scrapes agreeing on the driver environment, the
cached pool snapshot, the miner query data and also on the integer
wall-clock reading produce identical metric sets in identical order; the
clock condition is needed because the bminer miner-uptime point is derived
from the scrape-time clock. -/
theorem scrape_deterministic_two_runs (env env' : NvmlEnv) (now now' : Int)
    (pool pool' : Option PyVal) (miner miner' : Option (MinerKind × Except PyErr PyVal))
    (henv : env = env') (hnow : now = now') (hpool : pool = pool')
    (hminer : miner = miner') :
    scrape env now pool miner = scrape env' now' pool' miner' := by
  subst henv
  subst hnow
  subst hpool
  subst hminer
  rfl

/-- Witness for C5 as amended, at a concrete repeated scrape. -/
theorem scrape_deterministic_two_runs_witness :
    scrape envNoDevices 1000 none (some (MinerKind.bminer, .ok bmPayload)) =
    scrape envNoDevices 1000 none (some (MinerKind.bminer, .ok bmPayload)) :=
  scrape_deterministic_two_runs envNoDevices envNoDevices 1000 1000 none none
    (some (MinerKind.bminer, .ok bmPayload)) (some (MinerKind.bminer, .ok bmPayload))
    rfl rfl rfl rfl

/-- Characterisation of the validation step: the parsed arguments are
returned unchanged exactly when both argument groups are supplied either
not at all or completely. -/
theorem parse_args.validate_ok_iff (a : Args) :
    parse_args.validate a = .ok a ↔
      ((parse_args.poolGiven a = 0 ∨ parse_args.poolGiven a = 3) ∧
       (parse_args.minerGiven a = 0 ∨ parse_args.minerGiven a = 3)) := by
  unfold parse_args.validate
  by_cases hp : parse_args.poolGiven a = 0 ∨ parse_args.poolGiven a = 3
  · by_cases hm : parse_args.minerGiven a = 0 ∨ parse_args.minerGiven a = 3
    · simp [hp, hm]
    · simp [hp, hm]
  · simp [hp]

/-- C6: startup validation treats each three-field group all-or-nothing -
supplying exactly one of the pool fields is rejected with a startup error
(likewise exactly one of the miner fields), and supplying all three or
none of them (in both groups) is accepted. -/
theorem parse_args_group_validation (a : Args) :
    (parse_args.poolGiven a = 1 → ∃ msg, parse_args.validate a = .error msg) ∧
    (parse_args.minerGiven a = 1 → ∃ msg, parse_args.validate a = .error msg) ∧
    ((parse_args.poolGiven a = 0 ∨ parse_args.poolGiven a = 3) →
     (parse_args.minerGiven a = 0 ∨ parse_args.minerGiven a = 3) →
     parse_args.validate a = .ok a) := by
  refine ⟨?_, ?_, ?_⟩
  · intro h1
    exact ⟨"--pool requires --pool-api-host and --pool-api-miner.",
      by unfold parse_args.validate; simp [h1]⟩
  · intro h2
    by_cases hp : parse_args.poolGiven a = 0 ∨ parse_args.poolGiven a = 3
    · exact ⟨"--miner requires --miner-api-host and --miner-api-port.",
        by unfold parse_args.validate; simp [hp, h2]⟩
    · exact ⟨"--pool requires --pool-api-host and --pool-api-miner.",
        by unfold parse_args.validate; simp [hp]⟩
  · intro hp hm
    exact (parse_args.validate_ok_iff a).mpr ⟨hp, hm⟩

/-- A command line supplying no pool and no miner argument. -/
def argsNone : Args := ⟨9001, none, none, none, none, none, none⟩

/-- A command line supplying only the pool name. -/
def argsPoolOnly : Args := ⟨9001, some "flypool", none, none, none, none, none⟩

/-- A command line supplying only the miner name. -/
def argsMinerOnly : Args := ⟨9001, none, none, none, some "dstm", none, none⟩

/-- Witness for C6: one pool field alone is rejected, one miner field
alone is rejected, and the empty configuration is accepted. -/
theorem parse_args_group_validation_witness :
    (∃ msg, parse_args.validate argsPoolOnly = .error msg) ∧
    (∃ msg, parse_args.validate argsMinerOnly = .error msg) ∧
    parse_args.validate argsNone = .ok argsNone :=
  ⟨(parse_args_group_validation argsPoolOnly).1 rfl,
   (parse_args_group_validation argsMinerOnly).2.1 rfl,
   (parse_args_group_validation argsNone).2.2 (Or.inl rfl) (Or.inl rfl)⟩

/-- C10: the `not in (0, 3)` test also rejects two supplied fields of a
group, so for each group exactly the sizes 0 and 3 are accepted: size 1 or
2 in either group is a startup error, and success occurs precisely when
both group sizes lie in {0, 3}. -/
theorem parse_args_rejects_partial_groups (a : Args) :
    ((parse_args.poolGiven a = 1 ∨ parse_args.poolGiven a = 2) →
      ∃ msg, parse_args.validate a = .error msg) ∧
    ((parse_args.minerGiven a = 1 ∨ parse_args.minerGiven a = 2) →
      ∃ msg, parse_args.validate a = .error msg) ∧
    (parse_args.validate a = .ok a ↔
      ((parse_args.poolGiven a = 0 ∨ parse_args.poolGiven a = 3) ∧
       (parse_args.minerGiven a = 0 ∨ parse_args.minerGiven a = 3))) := by
  refine ⟨?_, ?_, parse_args.validate_ok_iff a⟩
  · rintro (h | h) <;>
      exact ⟨"--pool requires --pool-api-host and --pool-api-miner.",
        by unfold parse_args.validate; simp [h]⟩
  · intro h2
    by_cases hp : parse_args.poolGiven a = 0 ∨ parse_args.poolGiven a = 3
    · rcases h2 with h | h <;>
        exact ⟨"--miner requires --miner-api-host and --miner-api-port.",
          by unfold parse_args.validate; simp [hp, h]⟩
    · exact ⟨"--pool requires --pool-api-host and --pool-api-miner.",
        by unfold parse_args.validate; simp [hp]⟩

/-- A command line supplying two of the three pool fields. -/
def argsPoolTwo : Args := ⟨9001, some "flypool", some "eu1.flypool.org", none, none, none, none⟩

/-- A command line supplying two of the three miner fields. -/
def argsMinerTwo : Args := ⟨9001, none, none, none, some "bminer", some "localhost", none⟩

/-- A command line supplying both groups completely. -/
def argsAll : Args :=
  ⟨9001, some "flypool", some "eu1.flypool.org", some "wallet", some "dstm", some "localhost", some 2222⟩

/-- Witness for C10: two pool fields are rejected, two miner fields are
rejected, and the complete configuration is accepted. -/
theorem parse_args_rejects_partial_groups_witness :
    (∃ msg, parse_args.validate argsPoolTwo = .error msg) ∧
    (∃ msg, parse_args.validate argsMinerTwo = .error msg) ∧
    parse_args.validate argsAll = .ok argsAll :=
  ⟨(parse_args_rejects_partial_groups argsPoolTwo).1 (Or.inr rfl),
   (parse_args_rejects_partial_groups argsMinerTwo).2.1 (Or.inr rfl),
   (parse_args_rejects_partial_groups argsAll).2.2.mpr ⟨Or.inr rfl, Or.inr rfl⟩⟩

/-- A successful run of the per-device body implies its leading unguarded
UUID lookup succeeded. -/
theorem collectDevice_ok_uuid {env : NvmlEnv} {handle : Nat} {fams fams' : NvFams}
    (hok : NvidiaCollector.collectDevice env handle fams = .ok fams') :
    (env.nvmlDeviceGetUUID handle).isOk = true := by
  unfold NvidiaCollector.collectDevice at hok
  obtain ⟨gpu_id, hu, -⟩ := except_bind_ok_ex hok
  rw [hu]
  rfl

/-- A successful run of the device loop implies the unguarded UUID lookup
succeeded for every processed handle. -/
theorem collectLoop_ok_uuid {env : NvmlEnv} :
    ∀ {pairs : List (Nat × Nat)} {fams fams' : NvFams},
      NvidiaCollector.collectLoop env pairs fams = .ok fams' →
      ∀ p ∈ pairs, (env.nvmlDeviceGetUUID p.2).isOk = true := by
  intro pairs
  induction pairs with
  | nil =>
      intro fams fams' _ p hp
      cases hp
  | cons hd tl ih =>
      intro fams fams' hok p hp
      obtain ⟨i, handle⟩ := hd
      unfold NvidiaCollector.collectLoop at hok
      obtain ⟨fams2, hdev, hrest⟩ := except_bind_ok_ex hok
      rcases List.mem_cons.mp hp with rfl | hp
      · exact collectDevice_ok_uuid hdev
      · exact ih hrest p hp

/-- A successful handle-enumeration comprehension implies every index
resolved to a handle, and records the resolved pair. -/
theorem getHandles_ok {env : NvmlEnv} :
    ∀ {l : List Nat} {hs : List (Nat × Nat)},
      NvidiaCollector.getHandles env l = .ok hs →
      ∀ i ∈ l, ∃ h, env.nvmlDeviceGetHandleByIndex (i : Int) = .ok h ∧ (i, h) ∈ hs := by
  intro l
  induction l with
  | nil =>
      intro hs _ i hi
      cases hi
  | cons hd tl ih =>
      intro hs hok i hi
      unfold NvidiaCollector.getHandles at hok
      obtain ⟨h0, hh, hok⟩ := except_bind_ok_ex hok
      obtain ⟨hs0, hr, hpure⟩ := except_bind_ok_ex hok
      have hs_eq : hs = (hd, h0) :: hs0 := (Except.ok.inj hpure).symm
      rcases List.mem_cons.mp hi with rfl | hi
      · exact ⟨h0, hh, by rw [hs_eq]; exact List.mem_cons_self _ _⟩
      · obtain ⟨h1, hh1, hmem⟩ := ih hr i hi
        exact ⟨h1, hh1, by rw [hs_eq]; exact List.mem_cons_of_mem _ hmem⟩

/-- C8: the enumeration and identifier calls of `NvidiaCollector.collect`
(`nvmlDeviceGetCount`, `nvmlDeviceGetHandleByIndex`, `nvmlDeviceGetUUID`)
are issued outside the per-metric 0.0 guard: a device-count failure
propagates as-is, and a collection can only succeed when the count, every
handle lookup below the count, and every UUID lookup on those handles
succeeded - so any failure among them aborts the whole collection for all
devices and families. -/
theorem nvidia_enumeration_unguarded (env : NvmlEnv) :
    (∀ e, env.nvmlDeviceGetCount = .error e → NvidiaCollector.collect env = .error e) ∧
    (∀ fams, NvidiaCollector.collect env = .ok fams →
      ∃ n, env.nvmlDeviceGetCount = .ok n ∧
        ∀ i, i < n → ∃ h, env.nvmlDeviceGetHandleByIndex (i : Int) = .ok h ∧
          (env.nvmlDeviceGetUUID h).isOk = true) := by
  constructor
  · intro e he
    unfold NvidiaCollector.collect
    rw [he]
    rfl
  · intro fams hok
    unfold NvidiaCollector.collect at hok
    obtain ⟨n, hc, hok⟩ := except_bind_ok_ex hok
    obtain ⟨hs, hg, hok⟩ := except_bind_ok_ex hok
    obtain ⟨fams1, hl, -⟩ := except_bind_ok_ex hok
    refine ⟨n, hc, ?_⟩
    intro i hi
    obtain ⟨h, hh, hmem⟩ := getHandles_ok hg i (List.mem_range.mpr hi)
    exact ⟨h, hh, collectLoop_ok_uuid hl (i, h) hmem⟩

/-- The seven empty families emitted when no device is present. -/
def nvidiaEmptyFams : List MetricFamily :=
  [GaugeMetricFamily "nvidia_gpu_utilization" "GPU Utilization" ["gpu_id", "type"],
   GaugeMetricFamily "nvidia_clock_speed" "Clock Speed" ["gpu_id", "type"],
   GaugeMetricFamily "nvidia_power_usage" "Power Usage" ["gpu_id", "type"],
   GaugeMetricFamily "nvidia_memory_usage" "Memory Usage" ["gpu_id", "type"],
   GaugeMetricFamily "nvidia_bar1_memory_usage" "BAR1 Memory Usage" ["gpu_id", "type"],
   GaugeMetricFamily "nvidia_temperature" "Temperature" ["gpu_id", "type"],
   GaugeMetricFamily "nvidia_fan_speed" "Fan Speed" ["gpu_id"]]

/-- Witness for C8 at the zero-device environment, whose collection
succeeds with seven empty families. -/
theorem nvidia_enumeration_unguarded_witness :
    ∃ n, envNoDevices.nvmlDeviceGetCount = .ok n ∧
      ∀ i, i < n → ∃ h, envNoDevices.nvmlDeviceGetHandleByIndex (i : Int) = .ok h ∧
        (envNoDevices.nvmlDeviceGetUUID h).isOk = true :=
  (nvidia_enumeration_unguarded envNoDevices).2 nvidiaEmptyFams rfl
